import Mathlib

/-!
# Dexie data-validation plugin: embedding of `dexie-plugin-data-validation.js`

The plugin is one function, `DataValidationAddon(db, validationSchemas)`, that
closes over a record validator `mockValidator` and installs a `creating` and an
`updating` hook on every table of the store.  This file embeds

* the JavaScript values the validator inspects (`typeof`, truthiness, `<= 0`),
* objects as written in an object literal, with the spread of line 40,
* `mockValidator` (lines 8-21), returning `true` or throwing an `Error`,
* the two hook callbacks (lines 25-34 and 37-52) as functions from the hook
  context `this` and the arguments to the new context and the returned value,
* the same two callbacks run on a heap of objects, to say what they write to,
* the registration loop of `DataValidationAddon` (lines 23-53) on the tables of
  the store.

Objects are plain objects: their own string-keyed properties, and behind them the
members every plain object inherits from `Object.prototype`.  Other prototypes,
getters defined by the program and proxies are outside the model.
-/

namespace DexieValidation

/-! ## JavaScript values -/

/-- A JavaScript number as far as the comparison with zero can tell: `NaN`, an
infinity, or a finite double `mantissa × 2 ^ exponent` (its sign is the sign of
the mantissa; the mantissa `0` stands for both `0` and `-0`). -/
inductive JSNumber where
  | nan
  | infinity (negative : Bool)
  | finite (mantissa : Int) (exponent : Int)
  deriving DecidableEq, Repr

namespace JSNumber

/-- The comparison `n <= 0` of JavaScript: false on `NaN`. -/
def leZero : JSNumber → Bool
  | nan => false
  | infinity negative => negative
  | finite mantissa _ => decide (mantissa ≤ 0)

/-- The number is strictly greater than zero (false on `NaN`). -/
def isPositive : JSNumber → Bool
  | nan => false
  | infinity negative => !negative
  | finite mantissa _ => decide (0 < mantissa)

/-- The number is `0` or `-0`. -/
def isZero : JSNumber → Bool
  | finite mantissa _ => decide (mantissa = 0)
  | _ => false

/-- The number is strictly less than zero (false on `NaN`). -/
def isNegative : JSNumber → Bool
  | nan => false
  | infinity negative => negative
  | finite mantissa _ => decide (mantissa < 0)

/-- Truthiness of a number: every number but `NaN`, `0` and `-0`. -/
def truthy : JSNumber → Bool
  | nan => false
  | infinity _ => true
  | finite mantissa _ => decide (mantissa ≠ 0)

end JSNumber

/-- A JavaScript value.  An object is written as the list of its property
definitions in order, as in an object literal: a later definition of a key
overrides an earlier one.  Of a function only its `name` is kept. -/
inductive JSVal where
  | undefined
  | null
  | boolean (b : Bool)
  | number (n : JSNumber)
  | string (s : String)
  | bigint (i : Int)
  | symbol (description : String)
  | func (name : String)
  | object (props : List (String × JSVal))

/-- An object: its property definitions in order, the last definition of a key
being the one in force. -/
abbrev Obj := List (String × JSVal)

/-- The own property `key` of an object, when it is defined: the last
definition of `key` wins. -/
def Obj.lookup : Obj → String → Option JSVal
  | [], _ => none
  | (k, v) :: rest, key =>
    match Obj.lookup rest key with
    | some w => some w
    | none => if k = key then some v else none

/-- The methods of `Object.prototype`: the key under which every plain object
inherits the built-in function, and the `name` of that function. -/
def objectPrototypeMethods : List (String × String) :=
  [("constructor", "Object"), ("toString", "toString"),
    ("toLocaleString", "toLocaleString"), ("valueOf", "valueOf"),
    ("hasOwnProperty", "hasOwnProperty"), ("isPrototypeOf", "isPrototypeOf"),
    ("propertyIsEnumerable", "propertyIsEnumerable"),
    ("__defineGetter__", "__defineGetter__"), ("__defineSetter__", "__defineSetter__"),
    ("__lookupGetter__", "__lookupGetter__"), ("__lookupSetter__", "__lookupSetter__")]

/-- The object `Object.prototype`, as its own properties. -/
def objectPrototype : Obj :=
  objectPrototypeMethods.map fun entry => (entry.1, JSVal.func entry.2)

/-- The property `key` a plain object inherits, when there is one: a method of
`Object.prototype`, or for `__proto__` the prototype itself. -/
def Obj.inherited (key : String) : Option JSVal :=
  if key = "__proto__" then some (JSVal.object objectPrototype)
  else Obj.lookup objectPrototype key

/-- The expression `o[key]` (also `o.key`) on a plain object: the own property
when `key` is defined, else the property inherited from `Object.prototype`, else
`undefined`. -/
def Obj.get (o : Obj) (key : String) : JSVal :=
  match Obj.lookup o key with
  | some v => v
  | none => (Obj.inherited key).getD JSVal.undefined

/-- The keys an object defines. -/
def Obj.keys (o : Obj) : List String := o.map Prod.fst

namespace JSVal

/-- The operator `typeof`. -/
def typeof : JSVal → String
  | undefined => "undefined"
  | null => "object"
  | boolean _ => "boolean"
  | number _ => "number"
  | string _ => "string"
  | bigint _ => "bigint"
  | symbol _ => "symbol"
  | func _ => "function"
  | object _ => "object"

/-- Truthiness, as tested by `!v` and `v && ...`: the falsy values are
`undefined`, `null`, `false`, `0`, `-0`, `NaN`, `""` and `0n`. -/
def truthy : JSVal → Bool
  | undefined => false
  | null => false
  | boolean b => b
  | number n => n.truthy
  | string s => decide (s ≠ "")
  | bigint i => decide (i ≠ 0)
  | symbol _ => true
  | func _ => true
  | object _ => true

/-- The property read `v.key` on a value that is not `null` or `undefined`, for
the keys the validator reads from a schema (`name` and `age`): the property of
an object, the name of a function, and `undefined` on a primitive. -/
def getProp : JSVal → String → JSVal
  | object props, key => Obj.get props key
  | func name, key => if key = "name" then string name else undefined
  | _, _ => undefined

/-- The comparison `v <= 0` where it is evaluated, that is on a number (line 16
reaches it only when `typeof v` is `'number'`). -/
def leZero : JSVal → Bool
  | number n => n.leZero
  | _ => false

/-- The value is a number strictly greater than zero. -/
def isPositiveNumber : JSVal → Bool
  | number n => n.isPositive
  | _ => false

/-- The value is the number `0` or `-0`. -/
def isZeroNumber : JSVal → Bool
  | number n => n.isZero
  | _ => false

/-- The value is a number strictly less than zero. -/
def isNegativeNumber : JSVal → Bool
  | number n => n.isNegative
  | _ => false

end JSVal

/-! ## The record validator -/

/-- An `Error` object: its message. -/
structure JSError where
  message : String
  deriving DecidableEq, Repr

/-- The message of line 14. -/
def nameMessage (tableName : String) : String :=
  "Validation Error in " ++ tableName ++ ": 'name' must be a string."

/-- The message of line 17. -/
def ageMessage (tableName : String) : String :=
  "Validation Error in " ++ tableName ++ ": 'age' must be a positive number."

/-- The closure `mockValidator` of lines 8-21 over `validationSchemas`: it
returns `true` or throws an `Error`. -/
def mockValidator (validationSchemas : Obj) (tableName : String) (obj : Obj) :
    Except JSError Bool :=
  let schema := Obj.get validationSchemas tableName
  if !schema.truthy then Except.ok true
  else if (schema.getProp "name").truthy && ((Obj.get obj "name").typeof != "string") then
    Except.error ⟨nameMessage tableName⟩
  else if (schema.getProp "age").truthy &&
      ((Obj.get obj "age").typeof != "number" || (Obj.get obj "age").leZero) then
    Except.error ⟨ageMessage tableName⟩
  else Except.ok true

/-! ## The hooks -/

/-- A handler the hook context can hold: called with the host's arguments, it
returns a value or throws. -/
abbrev Handler := List JSVal → Except JSError JSVal

/-- The context `this` a hook is called on. -/
structure HookContext where
  onsuccess : Option Handler
  onerror : Option Handler

/-- How a call of a hook ends when it does not throw: the context it leaves and
the value it returns. -/
structure HookReturn where
  self : HookContext
  value : JSVal

/-- The arrow function `() => { throw e; }` of lines 30-32 and 48-50. -/
def rethrow (e : JSError) : Handler := fun _ => Except.error e

/-- The `creating` hook of lines 25-34, for the table named `tableName`. -/
def creatingHook (validationSchemas : Obj) (tableName : String) (self : HookContext)
    (_primKey : JSVal) (obj : Obj) (_trans : JSVal) : Except JSError HookReturn :=
  match mockValidator validationSchemas tableName obj with
  | Except.ok _ => Except.ok { self := self, value := JSVal.undefined }
  | Except.error e =>
    Except.ok { self := { self with onerror := some (rethrow e) }, value := JSVal.undefined }

/-- The object literal `{ ...obj, ...modifications }` of lines 40-43: the
property definitions of `obj` followed by those of `modifications`. -/
def finalObj (obj modifications : Obj) : Obj := obj ++ modifications

/-- The `updating` hook of lines 37-52, for the table named `tableName`. -/
def updatingHook (validationSchemas : Obj) (tableName : String) (self : HookContext)
    (modifications : Obj) (_primKey : JSVal) (obj : Obj) (_trans : JSVal) :
    Except JSError HookReturn :=
  match mockValidator validationSchemas tableName (finalObj obj modifications) with
  | Except.ok _ => Except.ok { self := self, value := JSVal.undefined }
  | Except.error e =>
    Except.ok { self := { self with onerror := some (rethrow e) }, value := JSVal.undefined }

/-! ## The hooks on objects in memory

The hooks receive references to objects.  To say which objects a call writes to,
the two callbacks are run here on a heap of objects: `obj` and `modifications` are
read through their references, and the object literal of line 40 allocates a new
object. -/

/-- The heap: the objects allocated so far, a reference being an index into it. -/
abbrev Heap := List Obj

/-- The object a reference points to (the empty object when nothing is allocated
there). -/
def Heap.read (heap : Heap) (ref : Nat) : Obj := heap.getD ref []

/-- Allocation of a new object, at the first free reference: the heap after the
allocation and the reference of the new object. -/
def Heap.alloc (heap : Heap) (o : Obj) : Heap × Nat := (heap ++ [o], heap.length)

/-- The `creating` hook of lines 25-34 called with a reference to the proposed
record: the validator reads the record, nothing is written to the heap. -/
def creatingHookOnHeap (validationSchemas : Obj) (tableName : String) (self : HookContext)
    (_primKey : JSVal) (heap : Heap) (obj : Nat) (_trans : JSVal) :
    Except JSError (HookReturn × Heap) :=
  match mockValidator validationSchemas tableName (Heap.read heap obj) with
  | Except.ok _ => Except.ok ({ self := self, value := JSVal.undefined }, heap)
  | Except.error e =>
    Except.ok
      ({ self := { self with onerror := some (rethrow e) }, value := JSVal.undefined }, heap)

/-- The `updating` hook of lines 37-52 called with references to the delta and to
the existing record: `finalObj` is allocated as a new object and the validator reads
it. -/
def updatingHookOnHeap (validationSchemas : Obj) (tableName : String) (self : HookContext)
    (heap : Heap) (modifications : Nat) (_primKey : JSVal) (obj : Nat) (_trans : JSVal) :
    Except JSError (HookReturn × Heap) :=
  let allocated := Heap.alloc heap (finalObj (Heap.read heap obj) (Heap.read heap modifications))
  match mockValidator validationSchemas tableName (Heap.read allocated.1 allocated.2) with
  | Except.ok _ => Except.ok ({ self := self, value := JSVal.undefined }, allocated.1)
  | Except.error e =>
    Except.ok
      ({ self := { self with onerror := some (rethrow e) }, value := JSVal.undefined },
        allocated.1)

/-! ## Registration (lines 6 and 23-53) -/

/-- A subscriber of the `creating` event of a table: called on the hook context with
`primKey`, `obj` and `trans`. -/
abbrev CreatingCallback := HookContext → JSVal → Obj → JSVal → Except JSError HookReturn

/-- A subscriber of the `updating` event of a table: called on the hook context with
`modifications`, `primKey`, `obj` and `trans`. -/
abbrev UpdatingCallback :=
  HookContext → Obj → JSVal → Obj → JSVal → Except JSError HookReturn

/-- A table of the store: its name and the subscribers of its two events, in the
order they subscribed. -/
structure Table where
  name : String
  creating : List CreatingCallback
  updating : List UpdatingCallback

/-- The call `table.hook('creating', callback)`: the callback subscribes to the
event. -/
def Table.hookCreating (table : Table) (callback : CreatingCallback) : Table :=
  { table with creating := table.creating ++ [callback] }

/-- The call `table.hook('updating', callback)`: the callback subscribes to the
event. -/
def Table.hookUpdating (table : Table) (callback : UpdatingCallback) : Table :=
  { table with updating := table.updating ++ [callback] }

/-- The store handle `db`, as far as the plugin uses it: the list `db.tables`. -/
structure Dexie where
  tables : List Table

/-- The function `DataValidationAddon(db, validationSchemas = {})` of lines 6-54: an
omitted mapping defaults to the empty object; on every table of `db.tables` the two
callbacks subscribe, closed over the mapping and the name of the table; the function
ends without a `return`, that is with `undefined`.  The result is the store after the
call and the value returned. -/
def DataValidationAddon (db : Dexie) (validationSchemas : Option Obj) :
    Except JSError (Dexie × JSVal) :=
  let schemas := validationSchemas.getD []
  Except.ok
    ({ tables := db.tables.map fun table =>
        (table.hookCreating (creatingHook schemas table.name)).hookUpdating
          (updatingHook schemas table.name) },
      JSVal.undefined)

/-! ## Example data (lines 61-79 of the source) -/

/-- The schema mapping of lines 61-66. -/
def exampleSchemas : Obj :=
  [("users", JSVal.object [("name", JSVal.string "string"), ("age", JSVal.string "number")])]

/-- The number thirty, `15 × 2 ^ 1`. -/
def thirty : JSVal := JSVal.number (JSNumber.finite 15 1)

/-- The record of line 76. -/
def charlie : Obj := [("name", JSVal.string "Charlie"), ("age", thirty)]

/-- The record of line 79. -/
def david : Obj := [("name", JSVal.string "David"), ("age", JSVal.string "twenty")]

/-- A record with a string `name` and the age `NaN`. -/
def eve : Obj := [("name", JSVal.string "Eve"), ("age", JSVal.number JSNumber.nan)]

/-- The stored record of the update example: `{name: "Alice", age: 30}`. -/
def alice : Obj := [("name", JSVal.string "Alice"), ("age", thirty)]

/-- The number minus five, `-5 × 2 ^ 0`. -/
def minusFive : JSVal := JSVal.number (JSNumber.finite (-5) 0)

/-- The delta of the update example: `{age: -5}`. -/
def ageMinusFive : Obj := [("age", minusFive)]

/-- A hook context with no handler set. -/
def emptyContext : HookContext := { onsuccess := none, onerror := none }

/-- A schema mapping whose only rule set declares the field `email`. -/
def emailSchemas : Obj := [("users", JSVal.object [("email", JSVal.string "string")])]

/-- A record whose `email` is the number forty-two, `21 × 2 ^ 1`. -/
def numericEmail : Obj := [("email", JSVal.number (JSNumber.finite 21 1))]

/-- A record that breaks both rules: `{name: 7, age: -5}`. -/
def bothWrong : Obj := [("name", JSVal.number (JSNumber.finite 7 0)), ("age", minusFive)]

/-- A schema mapping whose rule set declares `name` with the constraint
`'number'`. -/
def nameNumberSchemas : Obj := [("users", JSVal.object [("name", JSVal.string "number")])]

/-- A malformed schema mapping: the rule set of `users` is a string, not a mapping
from fields to constraints, and the rule set of `orders` gives `name` a constraint
of no recognised kind. -/
def malformedSchemas : Obj :=
  [("users", JSVal.string "oops"), ("orders", JSVal.object [("name", thirty)])]

/-- A store with the two tables `users` and `orders`, nothing subscribed. -/
def exampleDb : Dexie :=
  { tables := [{ name := "users", creating := [], updating := [] },
      { name := "orders", creating := [], updating := [] }] }

/-- A heap holding the stored record `{name: "Alice", age: 30}` at reference 0 and
the delta `{age: -5}` at reference 1. -/
def exampleHeap : Heap := [alice, ageMinusFive]

/-! ## Basic facts -/

theorem nameMessage_ne_ageMessage (tableName : String) :
    nameMessage tableName ≠ ageMessage tableName := by
  intro h
  have h2 := congrArg String.data h
  simp only [nameMessage, ageMessage, String.data_append, List.append_cancel_left_eq] at h2
  revert h2
  decide

theorem truthy_of_getProp_truthy (schema : JSVal) (key : String)
    (h : (schema.getProp key).truthy = true) : schema.truthy = true := by
  cases schema <;> simp_all [JSVal.getProp, JSVal.truthy]

/-- The outcome of the validator when the table has a truthy schema, by the
two tests of lines 13 and 16. -/
theorem mockValidator_of_truthy (validationSchemas : Obj) (tableName : String) (obj : Obj)
    (h : (Obj.get validationSchemas tableName).truthy = true) :
    mockValidator validationSchemas tableName obj =
      if ((Obj.get validationSchemas tableName).getProp "name").truthy = true ∧
          (Obj.get obj "name").typeof ≠ "string" then
        Except.error ⟨nameMessage tableName⟩
      else if ((Obj.get validationSchemas tableName).getProp "age").truthy = true ∧
          ((Obj.get obj "age").typeof ≠ "number" ∨ (Obj.get obj "age").leZero = true) then
        Except.error ⟨ageMessage tableName⟩
      else Except.ok true := by
  simp only [mockValidator, h, Bool.not_true, Bool.false_eq_true, if_false, Bool.and_eq_true,
    bne_iff_ne, ne_eq, Bool.or_eq_true]

theorem not_leZero_of_isPositiveNumber (v : JSVal) (h : v.isPositiveNumber = true) :
    v.typeof = "number" ∧ v.leZero = false := by
  cases v <;> simp_all [JSVal.isPositiveNumber, JSVal.typeof, JSVal.leZero]
  rename_i n
  cases n <;> simp_all [JSNumber.isPositive, JSNumber.leZero]

theorem lookup_eq_none_iff (o : Obj) (key : String) :
    Obj.lookup o key = none ↔ key ∉ Obj.keys o := by
  induction o with
  | nil => simp [Obj.lookup, Obj.keys]
  | cons p rest ih =>
    obtain ⟨k, v⟩ := p
    have hk : Obj.keys ((k, v) :: rest) = k :: Obj.keys rest := rfl
    rw [hk, List.mem_cons, not_or]
    cases hl : Obj.lookup rest key with
    | some w =>
      have : key ∈ Obj.keys rest := by
        by_contra hc
        rw [ih.mpr hc] at hl
        cases hl
      simp [Obj.lookup, hl, this]
    | none =>
      have : key ∉ Obj.keys rest := ih.mp hl
      by_cases hkk : k = key
      · simp [Obj.lookup, hl, hkk]
      · simp [Obj.lookup, hl, hkk, this, Ne.symm hkk]

theorem lookup_append (a b : Obj) (key : String) :
    Obj.lookup (a ++ b) key =
      match Obj.lookup b key with
      | some w => some w
      | none => Obj.lookup a key := by
  induction a with
  | nil => cases h : Obj.lookup b key <;> simp [Obj.lookup, h]
  | cons p rest ih =>
    obtain ⟨k, v⟩ := p
    rw [List.cons_append]
    simp only [Obj.lookup, ih]
    cases h : Obj.lookup b key <;> simp

theorem get_finalObj (obj modifications : Obj) (key : String) :
    Obj.get (finalObj obj modifications) key =
      if key ∈ Obj.keys modifications then Obj.get modifications key else Obj.get obj key := by
  unfold Obj.get finalObj
  rw [lookup_append]
  by_cases h : key ∈ Obj.keys modifications
  · rw [if_pos h]
    cases hl : Obj.lookup modifications key with
    | none => exact absurd h ((lookup_eq_none_iff _ _).mp hl)
    | some w => rfl
  · rw [if_neg h, (lookup_eq_none_iff _ _).mpr h]

theorem read_append_of_lt (heap : Heap) (o : Obj) (ref : Nat) (h : ref < heap.length) :
    Heap.read (heap ++ [o]) ref = Heap.read heap ref := by
  unfold Heap.read
  exact List.getD_append heap [o] [] ref h

theorem read_alloc (heap : Heap) (o : Obj) :
    Heap.read (Heap.alloc heap o).1 (Heap.alloc heap o).2 = o := by
  simp [Heap.read, Heap.alloc]

/-- The validator reads the record only through `obj.name` and `obj.age`. -/
theorem mockValidator_congr_obj (validationSchemas : Obj) (tableName : String)
    (obj other : Obj) (hn : Obj.get other "name" = Obj.get obj "name")
    (ha : Obj.get other "age" = Obj.get obj "age") :
    mockValidator validationSchemas tableName other =
      mockValidator validationSchemas tableName obj := by
  simp only [mockValidator, hn, ha]

/-- Fail-open holds for a table name that the mapping neither defines nor
inherits. -/
theorem mockValidator_of_no_schema (validationSchemas : Obj) (tableName : String)
    (obj : Obj) (h : tableName ∉ Obj.keys validationSchemas)
    (hi : Obj.inherited tableName = none) :
    mockValidator validationSchemas tableName obj = Except.ok true := by
  simp [mockValidator, Obj.get, (lookup_eq_none_iff _ _).mpr h, hi, JSVal.truthy]

theorem leZero_of_zero_or_negative (v : JSVal)
    (h : v.isZeroNumber = true ∨ v.isNegativeNumber = true) : v.leZero = true := by
  rcases h with h | h
  · cases v <;> simp_all [JSVal.isZeroNumber, JSVal.leZero]
    rename_i n
    cases n <;> simp_all [JSNumber.isZero, JSNumber.leZero]
  · cases v <;> simp_all [JSVal.isNegativeNumber, JSVal.leZero]
    rename_i n
    cases n <;> simp_all [JSNumber.isNegative, JSNumber.leZero]
    omega

/-! ## The claims -/

/-- C1. RequiredString rule on `name`: when the schema of the table declares `name` (its
`name` entry is truthy, which is how line 13 reads it), the validator throws the error
"'name' must be a string" if and only if `typeof obj.name` is not `'string'` (an absent
`name` reads as `undefined`); and when `obj.name` is a string and the `age` constraint,
if declared, is satisfied by a positive number, the validator returns `true`. -/
theorem mockValidator_name_rule (validationSchemas : Obj) (tableName : String) (obj : Obj)
    (hname : ((Obj.get validationSchemas tableName).getProp "name").truthy = true) :
    (mockValidator validationSchemas tableName obj = Except.error ⟨nameMessage tableName⟩ ↔
        (Obj.get obj "name").typeof ≠ "string") ∧
    ((Obj.get obj "name").typeof = "string" →
      (((Obj.get validationSchemas tableName).getProp "age").truthy = true →
        (Obj.get obj "age").isPositiveNumber = true) →
      mockValidator validationSchemas tableName obj = Except.ok true) := by
  have hs := truthy_of_getProp_truthy _ _ hname
  rw [mockValidator_of_truthy _ _ _ hs]
  constructor
  · constructor
    · intro h hstr
      simp only [hname, hstr, ne_eq, not_true_eq_false, and_false, if_false] at h
      split at h
      · injection h with h
        injection h with h
        exact nameMessage_ne_ageMessage tableName h.symm
      · cases h
    · intro h
      simp [hname, h]
  · intro hstr hage
    simp only [hname, hstr, ne_eq, not_true_eq_false, and_false, if_false]
    by_cases ha : ((Obj.get validationSchemas tableName).getProp "age").truthy = true
    · obtain ⟨h1, h2⟩ := not_leZero_of_isPositiveNumber _ (hage ha)
      simp [h1, h2]
    · simp [ha]

/-- Witness of C1 on the example schema and the record of line 76. -/
theorem mockValidator_name_rule_witness :
    (mockValidator exampleSchemas "users" charlie = Except.error ⟨nameMessage "users"⟩ ↔
        (Obj.get charlie "name").typeof ≠ "string") ∧
    ((Obj.get charlie "name").typeof = "string" →
      (((Obj.get exampleSchemas "users").getProp "age").truthy = true →
        (Obj.get charlie "age").isPositiveNumber = true) →
      mockValidator exampleSchemas "users" charlie = Except.ok true) :=
  mockValidator_name_rule exampleSchemas "users" charlie (by decide)

/-- C2 (evaluation at the failing input). With the example schema, the record
`{name: "Eve", age: NaN}` is accepted, although its `age` is of numeric kind and is
not strictly greater than zero: `NaN <= 0` is false, so the test of line 16 lets it
through. -/
theorem mockValidator_accepts_nan_age :
    mockValidator exampleSchemas "users" eve = Except.ok true ∧
    (Obj.get eve "name").typeof = "string" ∧
    (Obj.get eve "age").typeof = "number" ∧
    (Obj.get eve "age").isPositiveNumber = false :=
  ⟨rfl, rfl, rfl, rfl⟩

/-- C3 (evaluation at the failing input). On the rejected record of line 79 the
validator throws, yet the `creating` hook does not fail with that error: it returns
normally, without a value, having only stored a handler in `this.onerror`; the
`updating` hook does the same on the rejected update of `{name: "Alice", age: 30}` by
`{age: -5}`.  Nothing in the callback stops the write. -/
theorem hooks_do_not_throw_on_invalid :
    mockValidator exampleSchemas "users" david = Except.error ⟨ageMessage "users"⟩ ∧
    mockValidator exampleSchemas "users" (finalObj alice ageMinusFive) =
      Except.error ⟨ageMessage "users"⟩ ∧
    creatingHook exampleSchemas "users" emptyContext JSVal.undefined david JSVal.undefined =
      Except.ok ⟨⟨none, some (rethrow ⟨ageMessage "users"⟩)⟩, JSVal.undefined⟩ ∧
    updatingHook exampleSchemas "users" emptyContext ageMinusFive JSVal.undefined alice
      JSVal.undefined =
      Except.ok ⟨⟨none, some (rethrow ⟨ageMessage "users"⟩)⟩, JSVal.undefined⟩ ∧
    creatingHook exampleSchemas "users" emptyContext JSVal.undefined david JSVal.undefined ≠
      Except.error ⟨ageMessage "users"⟩ ∧
    updatingHook exampleSchemas "users" emptyContext ageMinusFive JSVal.undefined alice
      JSVal.undefined ≠ Except.error ⟨ageMessage "users"⟩ := by
  refine ⟨rfl, rfl, rfl, rfl, ?_, ?_⟩ <;> intro h <;> cases h

/-- C4. Update-merge correctness: the `updating` hook validates the candidate
`{ ...obj, ...modifications }`, exactly as the `creating` hook validates a proposed
record; the candidate defines a key if and only if the existing record or the delta
defines it; the value of every key is the delta's when the delta defines the key and
the existing record's otherwise.  For `{name: "Alice", age: 30}` and `{age: -5}` the
candidate has the keys `name` and `age`, with `name` = "Alice" and `age` = -5. -/
theorem updating_merge_correct (validationSchemas : Obj) (tableName : String)
    (self : HookContext) (modifications : Obj) (primKey : JSVal) (obj : Obj) (trans : JSVal) :
    updatingHook validationSchemas tableName self modifications primKey obj trans =
      creatingHook validationSchemas tableName self primKey (finalObj obj modifications) trans ∧
    (∀ key, key ∈ Obj.keys (finalObj obj modifications) ↔
      key ∈ Obj.keys obj ∨ key ∈ Obj.keys modifications) ∧
    (∀ key, Obj.get (finalObj obj modifications) key =
      if key ∈ Obj.keys modifications then Obj.get modifications key else Obj.get obj key) ∧
    (∀ key, key ∈ Obj.keys (finalObj alice ageMinusFive) ↔ key = "name" ∨ key = "age") ∧
    Obj.get (finalObj alice ageMinusFive) "name" = JSVal.string "Alice" ∧
    Obj.get (finalObj alice ageMinusFive) "age" = minusFive := by
  refine ⟨rfl, ?_, get_finalObj obj modifications, ?_, rfl, rfl⟩
  · intro key
    simp [Obj.keys, finalObj]
  · intro key
    simp [Obj.keys, finalObj, alice, ageMinusFive]

/-- C5. Update of `age` on a valid record: when the schema of the table declares `age`
(truthy entry) and the existing record is accepted by the validator, the update whose
delta is `{age: v}` is accepted (the validator returns `true` on the merge and the hook
leaves the context as it was) when `v` is a positive number, and is rejected with the
`age` error (which the hook stores in `this.onerror`) when `v` is not of numeric kind,
is zero, or is a negative number. -/
theorem update_age_on_valid_record (validationSchemas : Obj) (tableName : String)
    (self : HookContext) (primKey : JSVal) (obj : Obj) (trans : JSVal) (v : JSVal)
    (hage : ((Obj.get validationSchemas tableName).getProp "age").truthy = true)
    (hvalid : mockValidator validationSchemas tableName obj = Except.ok true) :
    (v.isPositiveNumber = true →
      mockValidator validationSchemas tableName (finalObj obj [("age", v)]) = Except.ok true ∧
      updatingHook validationSchemas tableName self [("age", v)] primKey obj trans =
        Except.ok ⟨self, JSVal.undefined⟩) ∧
    (v.typeof ≠ "number" ∨ v.isZeroNumber = true ∨ v.isNegativeNumber = true →
      mockValidator validationSchemas tableName (finalObj obj [("age", v)]) =
        Except.error ⟨ageMessage tableName⟩ ∧
      updatingHook validationSchemas tableName self [("age", v)] primKey obj trans =
        Except.ok ⟨⟨self.onsuccess, some (rethrow ⟨ageMessage tableName⟩)⟩,
          JSVal.undefined⟩) := by
  have hs := truthy_of_getProp_truthy _ _ hage
  have hn : Obj.get (finalObj obj [("age", v)]) "name" = Obj.get obj "name" := by
    rw [get_finalObj]; simp [Obj.keys]
  have ha : Obj.get (finalObj obj [("age", v)]) "age" = v := by
    rw [get_finalObj]; simp [Obj.keys, Obj.get, Obj.lookup]
  have hname : ¬ (((Obj.get validationSchemas tableName).getProp "name").truthy = true ∧
      (Obj.get obj "name").typeof ≠ "string") := by
    intro hc
    rw [mockValidator_of_truthy _ _ _ hs, if_pos hc] at hvalid
    cases hvalid
  constructor
  · intro hv
    obtain ⟨h1, h2⟩ := not_leZero_of_isPositiveNumber v hv
    have hm : mockValidator validationSchemas tableName (finalObj obj [("age", v)]) =
        Except.ok true := by
      rw [mockValidator_of_truthy _ _ _ hs, hn, ha, if_neg hname]
      simp [h1, h2]
    exact ⟨hm, by simp [updatingHook, hm]⟩
  · intro hv
    have hbad : v.typeof ≠ "number" ∨ v.leZero = true := by
      rcases hv with h | h | h
      · exact Or.inl h
      · right
        cases v <;> simp_all [JSVal.isZeroNumber, JSVal.leZero]
        rename_i n
        cases n <;> simp_all [JSNumber.isZero, JSNumber.leZero]
      · right
        cases v <;> simp_all [JSVal.isNegativeNumber, JSVal.leZero]
        rename_i n
        cases n <;> simp_all [JSNumber.isNegative, JSNumber.leZero]
        omega
    have hm : mockValidator validationSchemas tableName (finalObj obj [("age", v)]) =
        Except.error ⟨ageMessage tableName⟩ := by
      rw [mockValidator_of_truthy _ _ _ hs, hn, ha, if_neg hname, if_pos ⟨hage, hbad⟩]
    exact ⟨hm, by simp [updatingHook, hm]⟩

/-- Witness of C5: the stored record `{name: "Alice", age: 30}` under the example
schema, with the delta `{age: -5}`. -/
theorem update_age_on_valid_record_witness :
    (minusFive.isPositiveNumber = true →
      mockValidator exampleSchemas "users" (finalObj alice [("age", minusFive)]) =
        Except.ok true ∧
      updatingHook exampleSchemas "users" emptyContext [("age", minusFive)] JSVal.undefined
        alice JSVal.undefined = Except.ok ⟨emptyContext, JSVal.undefined⟩) ∧
    (minusFive.typeof ≠ "number" ∨ minusFive.isZeroNumber = true ∨
        minusFive.isNegativeNumber = true →
      mockValidator exampleSchemas "users" (finalObj alice [("age", minusFive)]) =
        Except.error ⟨ageMessage "users"⟩ ∧
      updatingHook exampleSchemas "users" emptyContext [("age", minusFive)] JSVal.undefined
        alice JSVal.undefined =
        Except.ok ⟨⟨emptyContext.onsuccess, some (rethrow ⟨ageMessage "users"⟩)⟩,
          JSVal.undefined⟩) :=
  update_age_on_valid_record exampleSchemas "users" emptyContext JSVal.undefined alice
    JSVal.undefined minusFive (by decide) rfl

/-- C6 (evaluation at the failing input). With the empty schema mapping `{}`, the
table name `constructor` has no entry, yet `validationSchemas[tableName]` is the
inherited function `Object`, which is truthy and has a truthy `name`: the validator
throws the error for `name` on the record `{}`, and the `creating` hook stores it in
`this.onerror`. -/
theorem inherited_member_read_as_schema :
    "constructor" ∉ Obj.keys ([] : Obj) ∧
    Obj.get ([] : Obj) "constructor" = JSVal.func "Object" ∧
    mockValidator [] "constructor" [] = Except.error ⟨nameMessage "constructor"⟩ ∧
    creatingHook [] "constructor" emptyContext JSVal.undefined [] JSVal.undefined =
      Except.ok ⟨⟨none, some (rethrow ⟨nameMessage "constructor"⟩)⟩, JSVal.undefined⟩ ∧
    updatingHook [] "constructor" emptyContext [] JSVal.undefined [] JSVal.undefined =
      Except.ok ⟨⟨none, some (rethrow ⟨nameMessage "constructor"⟩)⟩, JSVal.undefined⟩ :=
  ⟨by decide, rfl, rfl, rfl, rfl⟩

/-- C7. First-failure wins: when the schema of the table declares both `name` and `age`
(truthy entries) and the record breaks both rules (`name` is not a string, `age` is not
a positive number), the validator throws one error, the one for `name`, which is not
the error for `age`. -/
theorem first_failure_is_name (validationSchemas : Obj) (tableName : String) (obj : Obj)
    (hname : ((Obj.get validationSchemas tableName).getProp "name").truthy = true)
    (_hage : ((Obj.get validationSchemas tableName).getProp "age").truthy = true)
    (hn : (Obj.get obj "name").typeof ≠ "string")
    (_ha : (Obj.get obj "age").isPositiveNumber = false) :
    mockValidator validationSchemas tableName obj = Except.error ⟨nameMessage tableName⟩ ∧
    mockValidator validationSchemas tableName obj ≠ Except.error ⟨ageMessage tableName⟩ := by
  have hs := truthy_of_getProp_truthy _ _ hname
  have hm : mockValidator validationSchemas tableName obj =
      Except.error ⟨nameMessage tableName⟩ := by
    rw [mockValidator_of_truthy _ _ _ hs, if_pos ⟨hname, hn⟩]
  refine ⟨hm, ?_⟩
  rw [hm]
  intro h
  injection h with h
  injection h with h
  exact nameMessage_ne_ageMessage tableName h

/-- Witness of C7: the record `{name: 7, age: -5}` under the example schema. -/
theorem first_failure_is_name_witness :
    mockValidator exampleSchemas "users" bothWrong = Except.error ⟨nameMessage "users"⟩ ∧
    mockValidator exampleSchemas "users" bothWrong ≠ Except.error ⟨ageMessage "users"⟩ :=
  first_failure_is_name exampleSchemas "users" bothWrong (by decide) (by decide) (by decide)
    (by decide)

/-- C8. The validation error identifies table and field: every error the validator
throws for a table has the message "Validation Error in <table>: 'name' must be a
string." (and then `name` is not a string) or "Validation Error in <table>: 'age' must
be a positive number." (and then `age` is not a number or is `<= 0`).  With the
example schema, `{name: "Charlie", age: 30}` is accepted and
`{name: "David", age: "twenty"}` is rejected with the `age` message for `users`. -/
theorem validation_error_names_table_and_field (validationSchemas : Obj)
    (tableName : String) (obj : Obj) (e : JSError)
    (h : mockValidator validationSchemas tableName obj = Except.error e) :
    ((e.message = "Validation Error in " ++ tableName ++ ": 'name' must be a string." ∧
        (Obj.get obj "name").typeof ≠ "string") ∨
      (e.message = "Validation Error in " ++ tableName ++ ": 'age' must be a positive number." ∧
        ((Obj.get obj "age").typeof ≠ "number" ∨ (Obj.get obj "age").leZero = true))) ∧
    mockValidator exampleSchemas "users" charlie = Except.ok true ∧
    mockValidator exampleSchemas "users" david =
      Except.error ⟨"Validation Error in users: 'age' must be a positive number."⟩ := by
  refine ⟨?_, rfl, rfl⟩
  by_cases hs : (Obj.get validationSchemas tableName).truthy = true
  · rw [mockValidator_of_truthy _ _ _ hs] at h
    split at h
    · rename_i h1
      injection h with h
      exact Or.inl ⟨by rw [← h]; rfl, h1.2⟩
    · split at h
      · rename_i h2
        injection h with h
        exact Or.inr ⟨by rw [← h]; rfl, h2.2⟩
      · cases h
  · simp [mockValidator, hs] at h

/-- Witness of C8: the error thrown for the record of line 79. -/
theorem validation_error_names_table_and_field_witness :
    (("Validation Error in users: 'age' must be a positive number." =
          "Validation Error in " ++ "users" ++ ": 'name' must be a string." ∧
        (Obj.get david "name").typeof ≠ "string") ∨
      ("Validation Error in users: 'age' must be a positive number." =
          "Validation Error in " ++ "users" ++ ": 'age' must be a positive number." ∧
        ((Obj.get david "age").typeof ≠ "number" ∨ (Obj.get david "age").leZero = true))) ∧
    mockValidator exampleSchemas "users" charlie = Except.ok true ∧
    mockValidator exampleSchemas "users" david =
      Except.error ⟨"Validation Error in users: 'age' must be a positive number."⟩ :=
  validation_error_names_table_and_field exampleSchemas "users" david
    ⟨"Validation Error in users: 'age' must be a positive number."⟩ rfl

/-- C9 (counterexample). A rule set that declares `email` as a required string does
not make the validator look at `email`: the record `{email: 42}` is accepted. -/
theorem declared_email_not_validated :
    ((Obj.get emailSchemas "users").getProp "email").truthy = true ∧
    (Obj.get numericEmail "email").typeof ≠ "string" ∧
    mockValidator emailSchemas "users" numericEmail = Except.ok true :=
  ⟨by decide, by decide, rfl⟩

/-- C9 (amended). Of the fields a registered rule set declares, the validator validates
`name` and `age`, against the candidate's value for the field (an absent field reads
as `undefined`): a candidate whose declared `name` is not a string is rejected with the
error naming `name`; a candidate that passes the `name` rule and whose declared `age`
is not of numeric kind, is zero or is negative is rejected with the error naming
`age`; a candidate whose declared `name` is a string and whose declared `age` is a
positive number is accepted; and no other field of the candidate is examined, two
candidates with the same `name` and `age` having the same outcome. -/
theorem declared_name_and_age_validated (validationSchemas : Obj) (tableName : String)
    (obj : Obj) (hs : (Obj.get validationSchemas tableName).truthy = true) :
    (((Obj.get validationSchemas tableName).getProp "name").truthy = true →
      (Obj.get obj "name").typeof ≠ "string" →
      mockValidator validationSchemas tableName obj = Except.error ⟨nameMessage tableName⟩) ∧
    (((Obj.get validationSchemas tableName).getProp "age").truthy = true →
      (((Obj.get validationSchemas tableName).getProp "name").truthy = true →
        (Obj.get obj "name").typeof = "string") →
      ((Obj.get obj "age").typeof ≠ "number" ∨ (Obj.get obj "age").isZeroNumber = true ∨
        (Obj.get obj "age").isNegativeNumber = true) →
      mockValidator validationSchemas tableName obj = Except.error ⟨ageMessage tableName⟩) ∧
    ((((Obj.get validationSchemas tableName).getProp "name").truthy = true →
        (Obj.get obj "name").typeof = "string") →
      (((Obj.get validationSchemas tableName).getProp "age").truthy = true →
        (Obj.get obj "age").isPositiveNumber = true) →
      mockValidator validationSchemas tableName obj = Except.ok true) ∧
    (∀ other : Obj, Obj.get other "name" = Obj.get obj "name" →
      Obj.get other "age" = Obj.get obj "age" →
      mockValidator validationSchemas tableName other =
        mockValidator validationSchemas tableName obj) := by
  refine ⟨?_, ?_, ?_, ?_⟩
  · intro hn hstr
    rw [mockValidator_of_truthy _ _ _ hs, if_pos ⟨hn, hstr⟩]
  · intro ha hname hbad
    have h1 : ¬ (((Obj.get validationSchemas tableName).getProp "name").truthy = true ∧
        (Obj.get obj "name").typeof ≠ "string") := fun hc => hc.2 (hname hc.1)
    have h2 : (Obj.get obj "age").typeof ≠ "number" ∨ (Obj.get obj "age").leZero = true := by
      rcases hbad with h | h
      · exact Or.inl h
      · exact Or.inr (leZero_of_zero_or_negative _ h)
    rw [mockValidator_of_truthy _ _ _ hs, if_neg h1, if_pos ⟨ha, h2⟩]
  · intro hname hage
    have h1 : ¬ (((Obj.get validationSchemas tableName).getProp "name").truthy = true ∧
        (Obj.get obj "name").typeof ≠ "string") := fun hc => hc.2 (hname hc.1)
    have h2 : ¬ (((Obj.get validationSchemas tableName).getProp "age").truthy = true ∧
        ((Obj.get obj "age").typeof ≠ "number" ∨ (Obj.get obj "age").leZero = true)) := by
      intro hc
      obtain ⟨h3, h4⟩ := not_leZero_of_isPositiveNumber _ (hage hc.1)
      rcases hc.2 with h5 | h5
      · exact h5 h3
      · rw [h4] at h5; cases h5
    rw [mockValidator_of_truthy _ _ _ hs, if_neg h1, if_neg h2]
  · intro other hn ha
    exact mockValidator_congr_obj validationSchemas tableName obj other hn ha

/-- Witness of C9 (amended): the record of line 79 under the example schema, rejected
with the error naming `age`. -/
theorem declared_name_and_age_validated_witness :
    mockValidator exampleSchemas "users" david = Except.error ⟨ageMessage "users"⟩ :=
  (declared_name_and_age_validated exampleSchemas "users" david (by decide)).2.1 (by decide)
    (fun _ => by decide) (Or.inl (by decide))

/-- C10. On Valid the interceptor takes no action: when the validator accepts the
proposed record, the `creating` hook returns normally, returns `undefined` and leaves
the hook context exactly as it was (`this.onerror` is not set); when the validator
accepts the merged candidate, the `updating` hook does the same. -/
theorem hooks_take_no_action_on_valid (validationSchemas : Obj) (tableName : String)
    (self : HookContext) (modifications : Obj) (primKey : JSVal) (obj : Obj) (trans : JSVal) :
    (mockValidator validationSchemas tableName obj = Except.ok true →
      creatingHook validationSchemas tableName self primKey obj trans =
        Except.ok ⟨self, JSVal.undefined⟩) ∧
    (mockValidator validationSchemas tableName (finalObj obj modifications) = Except.ok true →
      updatingHook validationSchemas tableName self modifications primKey obj trans =
        Except.ok ⟨self, JSVal.undefined⟩) := by
  constructor
  · intro h
    simp [creatingHook, h]
  · intro h
    simp [updatingHook, h]

/-- Witness of C10: the creation of the record of line 76, and the update of
`{name: "Alice", age: 30}` by `{name: "Charlie", age: 30}`. -/
theorem hooks_take_no_action_on_valid_witness :
    creatingHook exampleSchemas "users" emptyContext JSVal.undefined charlie JSVal.undefined =
      Except.ok ⟨emptyContext, JSVal.undefined⟩ ∧
    updatingHook exampleSchemas "users" emptyContext charlie JSVal.undefined alice
      JSVal.undefined = Except.ok ⟨emptyContext, JSVal.undefined⟩ :=
  ⟨(hooks_take_no_action_on_valid exampleSchemas "users" emptyContext charlie JSVal.undefined
      charlie JSVal.undefined).1 rfl,
   (hooks_take_no_action_on_valid exampleSchemas "users" emptyContext charlie JSVal.undefined
      alice JSVal.undefined).2 rfl⟩

/-- C11. Non-interference with the record: run on a heap, the `creating` hook leaves
the heap as it was, so the proposed record is unchanged; the `updating` hook only
allocates the merged candidate at a new reference, so every object allocated before
the call, the existing record and the delta among them, reads as before.  Both hold
whether the validator accepts or throws, and the hook ends as it does on the values
(`creatingHook`, `updatingHook`). -/
theorem hooks_leave_records_unchanged (validationSchemas : Obj) (tableName : String)
    (self : HookContext) (heap : Heap) (modifications : Nat) (primKey : JSVal) (obj : Nat)
    (trans : JSVal) :
    (∃ r, creatingHook validationSchemas tableName self primKey (Heap.read heap obj) trans =
        Except.ok r ∧
      creatingHookOnHeap validationSchemas tableName self primKey heap obj trans =
        Except.ok (r, heap)) ∧
    (∃ r, updatingHook validationSchemas tableName self (Heap.read heap modifications) primKey
        (Heap.read heap obj) trans = Except.ok r ∧
      updatingHookOnHeap validationSchemas tableName self heap modifications primKey obj trans =
        Except.ok
          (r, heap ++ [finalObj (Heap.read heap obj) (Heap.read heap modifications)])) ∧
    (∀ ref, ref < heap.length →
      Heap.read (heap ++ [finalObj (Heap.read heap obj) (Heap.read heap modifications)]) ref =
        Heap.read heap ref ∧
      ref ≠ (Heap.alloc heap
        (finalObj (Heap.read heap obj) (Heap.read heap modifications))).2) := by
  refine ⟨?_, ?_, ?_⟩
  · unfold creatingHook creatingHookOnHeap
    cases mockValidator validationSchemas tableName (Heap.read heap obj) with
    | ok b => exact ⟨_, rfl, rfl⟩
    | error e => exact ⟨_, rfl, rfl⟩
  · unfold updatingHook updatingHookOnHeap
    simp only [read_alloc]
    cases mockValidator validationSchemas tableName
        (finalObj (Heap.read heap obj) (Heap.read heap modifications)) with
    | ok b => exact ⟨_, rfl, rfl⟩
    | error e => exact ⟨_, rfl, rfl⟩
  · intro ref h
    exact ⟨read_append_of_lt heap _ ref h, Nat.ne_of_lt h⟩

/-- Witness of C11: the update of `{name: "Alice", age: 30}` (reference 0) by
`{age: -5}` (reference 1), which the validator rejects: both objects read as
before and the candidate is at reference 2. -/
theorem hooks_leave_records_unchanged_witness :
    Heap.read (exampleHeap ++ [finalObj (Heap.read exampleHeap 0) (Heap.read exampleHeap 1)]) 0 =
      Heap.read exampleHeap 0 ∧
    0 ≠ (Heap.alloc exampleHeap
      (finalObj (Heap.read exampleHeap 0) (Heap.read exampleHeap 1))).2 :=
  (hooks_leave_records_unchanged exampleSchemas "users" emptyContext exampleHeap 1
    JSVal.undefined 0 JSVal.undefined).2.2 0 (by decide)

/-- C12. Registration discipline: for every store and every schema mapping (given or
omitted), `DataValidationAddon` returns `undefined` and leaves a store with the same
tables in the same order, each under its name, where each table has, after the
subscribers it already had, exactly one more `creating` subscriber and exactly one
more `updating` subscriber: the two hooks for that table.  This does not depend on
the mapping having an entry for the table. -/
theorem registration_once_per_table (db : Dexie) (validationSchemas : Option Obj) :
    ∃ after : Dexie,
      DataValidationAddon db validationSchemas = Except.ok (after, JSVal.undefined) ∧
      after.tables.length = db.tables.length ∧
      ∀ (i : Nat) (table : Table), db.tables[i]? = some table →
        after.tables[i]? = some
          { name := table.name
            creating := table.creating ++ [creatingHook (validationSchemas.getD []) table.name]
            updating :=
              table.updating ++ [updatingHook (validationSchemas.getD []) table.name] } := by
  refine ⟨_, rfl, by simp, ?_⟩
  intro i table h
  simp [h, Table.hookCreating, Table.hookUpdating]

/-- Witness of C12: the table `orders` (index 1) of the example store, for which
the example mapping has no entry. -/
theorem registration_once_per_table_witness :
    ∃ after : Dexie,
      DataValidationAddon exampleDb (some exampleSchemas) = Except.ok (after, JSVal.undefined) ∧
      after.tables.length = exampleDb.tables.length ∧
      after.tables[1]? = some
        { name := "orders"
          creating := [] ++ [creatingHook exampleSchemas "orders"]
          updating := [] ++ [updatingHook exampleSchemas "orders"] } := by
  obtain ⟨after, h1, h2, h3⟩ := registration_once_per_table exampleDb (some exampleSchemas)
  exact ⟨after, h1, h2, h3 1 { name := "orders", creating := [], updating := [] } rfl⟩

/-- C13 (counterexample). With a malformed schema mapping (a rule set that is a string,
and a constraint that is the number 30) the setup call on the example store does not
fail: it returns `undefined`. -/
theorem setup_accepts_malformed_schemas :
    (Obj.get malformedSchemas "users").typeof = "string" ∧
    ((Obj.get malformedSchemas "orders").getProp "name").typeof = "number" ∧
    ∃ after : Dexie,
      DataValidationAddon exampleDb (some malformedSchemas) =
        Except.ok (after, JSVal.undefined) :=
  ⟨rfl, rfl, _, rfl⟩

/-- C13 (amended). Setup does not validate the schema mapping: for every store and
every schema mapping, well formed or not, given or omitted, `DataValidationAddon`
returns normally with `undefined`; the store it leaves has the tables of the store it
was called on, under the same names in the same order, and on each of them the two
callbacks are registered after the earlier subscribers, closed over the mapping as it
was given. -/
theorem setup_never_fails (db : Dexie) (validationSchemas : Option Obj) :
    ∃ after : Dexie,
      DataValidationAddon db validationSchemas = Except.ok (after, JSVal.undefined) ∧
      after.tables.map Table.name = db.tables.map Table.name ∧
      ∀ (i : Nat) (table : Table), db.tables[i]? = some table →
        ∃ registered : Table, after.tables[i]? = some registered ∧
          registered.name = table.name ∧
          registered.creating =
            table.creating ++ [creatingHook (validationSchemas.getD []) table.name] ∧
          registered.updating =
            table.updating ++ [updatingHook (validationSchemas.getD []) table.name] := by
  refine ⟨_, rfl, ?_, ?_⟩
  · simp [Table.hookCreating, Table.hookUpdating, Function.comp_def]
  · intro i table h
    refine ⟨(table.hookCreating (creatingHook (validationSchemas.getD []) table.name)).hookUpdating
      (updatingHook (validationSchemas.getD []) table.name), ?_, rfl, rfl, rfl⟩
    simp [h]

/-- Witness of C13 (amended): the malformed mapping on the example store; on the
table `orders` (index 1) the two callbacks are registered, closed over the malformed
mapping. -/
theorem setup_never_fails_witness :
    ∃ after : Dexie,
      DataValidationAddon exampleDb (some malformedSchemas) =
        Except.ok (after, JSVal.undefined) ∧
      after.tables.map Table.name = exampleDb.tables.map Table.name ∧
      ∃ registered : Table, after.tables[1]? = some registered ∧
        registered.name = "orders" ∧
        registered.creating = [] ++ [creatingHook malformedSchemas "orders"] ∧
        registered.updating = [] ++ [updatingHook malformedSchemas "orders"] := by
  obtain ⟨after, h1, h2, h3⟩ := setup_never_fails exampleDb (some malformedSchemas)
  exact ⟨after, h1, h2, h3 1 { name := "orders", creating := [], updating := [] } rfl⟩

/-- C14. The hook callbacks never throw: on every input each of the two callbacks
returns normally, with the value `undefined` and with `this.onsuccess` as it was; when
the validator throws `e` (on the proposed record, or on the merged candidate),
`this.onerror` is the handler `() => { throw e; }`, which throws `e` whenever it is
called; when the validator returns, the hook context is exactly as it was. -/
theorem hooks_never_throw (validationSchemas : Obj) (tableName : String)
    (self : HookContext) (modifications : Obj) (primKey : JSVal) (obj : Obj) (trans : JSVal) :
    (∃ r, creatingHook validationSchemas tableName self primKey obj trans = Except.ok r ∧
      r.value = JSVal.undefined ∧ r.self.onsuccess = self.onsuccess ∧
      (∀ e, mockValidator validationSchemas tableName obj = Except.error e →
        r.self.onerror = some (rethrow e)) ∧
      (∀ b, mockValidator validationSchemas tableName obj = Except.ok b → r.self = self)) ∧
    (∃ r, updatingHook validationSchemas tableName self modifications primKey obj trans =
        Except.ok r ∧
      r.value = JSVal.undefined ∧ r.self.onsuccess = self.onsuccess ∧
      (∀ e, mockValidator validationSchemas tableName (finalObj obj modifications) =
          Except.error e →
        r.self.onerror = some (rethrow e)) ∧
      (∀ b, mockValidator validationSchemas tableName (finalObj obj modifications) =
          Except.ok b →
        r.self = self)) ∧
    (∀ (e : JSError) (args : List JSVal), rethrow e args = Except.error e) := by
  refine ⟨?_, ?_, fun _ _ => rfl⟩
  · unfold creatingHook
    cases mockValidator validationSchemas tableName obj with
    | ok b => exact ⟨_, rfl, rfl, rfl, fun e h => (by cases h), fun _ _ => rfl⟩
    | error e =>
      refine ⟨_, rfl, rfl, rfl, fun e2 h => ?_, fun b h => by cases h⟩
      injection h with h
      rw [h]
  · unfold updatingHook
    cases mockValidator validationSchemas tableName (finalObj obj modifications) with
    | ok b => exact ⟨_, rfl, rfl, rfl, fun e h => (by cases h), fun _ _ => rfl⟩
    | error e =>
      refine ⟨_, rfl, rfl, rfl, fun e2 h => ?_, fun b h => by cases h⟩
      injection h with h
      rw [h]

/-- Witness of C14: the creation of the record of line 79, which the validator
rejects, and the update of `{name: "Alice", age: 30}` by the record of line 76,
which it accepts. -/
theorem hooks_never_throw_witness :
    (∃ r, creatingHook exampleSchemas "users" emptyContext JSVal.undefined david
        JSVal.undefined = Except.ok r ∧
      r.value = JSVal.undefined ∧ r.self.onsuccess = emptyContext.onsuccess ∧
      r.self.onerror = some (rethrow ⟨ageMessage "users"⟩)) ∧
    (∃ r, updatingHook exampleSchemas "users" emptyContext charlie JSVal.undefined alice
        JSVal.undefined = Except.ok r ∧
      r.value = JSVal.undefined ∧ r.self = emptyContext) := by
  obtain ⟨⟨r1, h1, h2, h3, h4, _⟩, _, _⟩ := hooks_never_throw exampleSchemas "users"
    emptyContext charlie JSVal.undefined david JSVal.undefined
  obtain ⟨_, ⟨r2, g1, g2, _, _, g5⟩, _⟩ := hooks_never_throw exampleSchemas "users"
    emptyContext charlie JSVal.undefined alice JSVal.undefined
  exact ⟨⟨r1, h1, h2, h3, h4 _ rfl⟩, ⟨r2, g1, g2, g5 true rfl⟩⟩

/-- C15. The constraint kind is ignored: for two schema mappings whose rule sets for
the table are both registered (truthy) and agree on whether their `name` entry is
truthy and on whether their `age` entry is truthy, the validator gives the same
outcome on every record.  Under `{name: 'number'}` a numeric `name` is rejected with
the error for `name`, and a rule set declaring only `email` accepts every record. -/
theorem outcome_depends_on_truthiness_only (first second : Obj) (tableName : String)
    (obj : Obj)
    (h1 : (Obj.get first tableName).truthy = true)
    (h2 : (Obj.get second tableName).truthy = true)
    (hname : ((Obj.get first tableName).getProp "name").truthy =
      ((Obj.get second tableName).getProp "name").truthy)
    (hage : ((Obj.get first tableName).getProp "age").truthy =
      ((Obj.get second tableName).getProp "age").truthy) :
    mockValidator first tableName obj = mockValidator second tableName obj ∧
    mockValidator nameNumberSchemas "users" bothWrong = Except.error ⟨nameMessage "users"⟩ ∧
    (∀ record : Obj, mockValidator emailSchemas "users" record = Except.ok true) := by
  refine ⟨?_, rfl, fun record => rfl⟩
  rw [mockValidator_of_truthy _ _ _ h1, mockValidator_of_truthy _ _ _ h2, hname, hage]

/-- Witness of C15: the example rule set `{name: 'string', age: 'number'}` and the
rule set `{name: 30, age: true, email: 'string'}` give the same outcome on the record
of line 79. -/
theorem outcome_depends_on_truthiness_only_witness :
    mockValidator exampleSchemas "users" david =
      mockValidator
        [("users", JSVal.object [("name", thirty), ("age", JSVal.boolean true),
          ("email", JSVal.string "string")])] "users" david ∧
    mockValidator nameNumberSchemas "users" bothWrong = Except.error ⟨nameMessage "users"⟩ ∧
    (∀ record : Obj, mockValidator emailSchemas "users" record = Except.ok true) :=
  outcome_depends_on_truthiness_only exampleSchemas
    [("users", JSVal.object [("name", thirty), ("age", JSVal.boolean true),
      ("email", JSVal.string "string")])] "users" david (by decide) (by decide) (by decide)
    (by decide)

/-- C16. An update is judged on the whole merged record: when the delta defines
neither `name` nor `age`, the validator gives on the merged candidate the outcome it
gives on the existing record, and the `updating` hook ends as the `creating` hook
does on the existing record; so such an update is accepted if and only if the
existing record is. -/
theorem update_of_other_fields_judges_existing (validationSchemas : Obj)
    (tableName : String) (self : HookContext) (modifications : Obj) (primKey : JSVal)
    (obj : Obj) (trans : JSVal)
    (hname : "name" ∉ Obj.keys modifications) (hage : "age" ∉ Obj.keys modifications) :
    mockValidator validationSchemas tableName (finalObj obj modifications) =
      mockValidator validationSchemas tableName obj ∧
    updatingHook validationSchemas tableName self modifications primKey obj trans =
      creatingHook validationSchemas tableName self primKey obj trans ∧
    (mockValidator validationSchemas tableName (finalObj obj modifications) = Except.ok true ↔
      mockValidator validationSchemas tableName obj = Except.ok true) := by
  have h : mockValidator validationSchemas tableName (finalObj obj modifications) =
      mockValidator validationSchemas tableName obj := by
    apply mockValidator_congr_obj
    · rw [get_finalObj, if_neg hname]
    · rw [get_finalObj, if_neg hage]
  refine ⟨h, ?_, by rw [h]⟩
  unfold updatingHook creatingHook
  rw [h]

/-- Witness of C16: the delta `{email: 42}` and the empty delta on the stored record
`{name: 7, age: -5}`, which is not valid. -/
theorem update_of_other_fields_judges_existing_witness :
    (mockValidator exampleSchemas "users" (finalObj bothWrong numericEmail) =
      mockValidator exampleSchemas "users" bothWrong ∧
    updatingHook exampleSchemas "users" emptyContext numericEmail JSVal.undefined bothWrong
        JSVal.undefined =
      creatingHook exampleSchemas "users" emptyContext JSVal.undefined bothWrong
        JSVal.undefined ∧
    (mockValidator exampleSchemas "users" (finalObj bothWrong numericEmail) = Except.ok true ↔
      mockValidator exampleSchemas "users" bothWrong = Except.ok true)) ∧
    mockValidator exampleSchemas "users" (finalObj bothWrong []) =
      Except.error ⟨nameMessage "users"⟩ :=
  ⟨update_of_other_fields_judges_existing exampleSchemas "users" emptyContext numericEmail
    JSVal.undefined bothWrong JSVal.undefined (by decide) (by decide), rfl⟩

end DexieValidation
